import Mathlib

/-!
Verification development for the traffic-signal controller of this
repository.  The Arduino source (src/arduino/traffic_controller.ino)
contains two variants of the controller:

* variant 1 (lines 1-230): a polling controller with globals
  `vehicleCounts`, `emergencyStatus`, `trafficSystemRunning`,
  `currentRoad`, `greenEndTime`, `greenActive`, the functions
  `handleSerialCommands`, `parseUpdateCommand`, `getHighestPriorityRoad`,
  `startGreenLight`, `endGreenLight`, `allRedLights`;

* variant 2 (lines 232-524): an event-driven controller with globals
  `currentGreenRoad`, `vehicleCounts`, `emergencyOverride`,
  `systemActive`, `lastSwitchTime`, and the functions `processCommand`,
  `parseUpdateCommand`, `manageTrafficLights`, `getEmergencyRoad`,
  `getHighestTrafficRoad`, `switchToRoad`, `setAllRed`, `setRoadGreen`.

Both variants are embedded below (namespaces `V1` and `V2`).  LEDs are
modelled per road as three booleans (red / yellow / green pins); time is
a natural number of milliseconds since boot; Arduino `int` values are
modelled as mathematical integers; command lines are lists of
characters.
-/

namespace Traffic

/-- State of the three LED pins of one road: red, yellow, green. -/
structure LedState where
  red : Bool
  yellow : Bool
  green : Bool
deriving DecidableEq, Repr

/-- The configuration a road shows when only its red LED is driven high. -/
def redOnly : LedState := ⟨true, false, false⟩

/-- A road is in a non-red signal state when its yellow or green LED is lit. -/
def nonRed (s : LedState) : Bool := s.yellow || s.green

/-- The four road indices, in the order the source's for-loops visit them. -/
def roadList : List (Fin 4) := [0, 1, 2, 3]

namespace V1

/-- Configuration constant BASE_GREEN_DELAY (ms). -/
def BASE_GREEN_DELAY : Int := 5000

/-- Configuration constant MAX_GREEN_DELAY (ms). -/
def MAX_GREEN_DELAY : Int := 15000

/-- Configuration constant MIN_GREEN_DELAY (ms). -/
def MIN_GREEN_DELAY : Int := 3000

/-- Configuration constant YELLOW_DELAY (ms). -/
def YELLOW_DELAY : Nat := 2000

/-- Configuration constant VEHICLE_FACTOR (ms per vehicle). -/
def VEHICLE_FACTOR : Int := 300

/-- Arduino constrain macro: `(amt<low)?low:((amt>high)?high:amt)`. -/
def constrain (amt low high : Int) : Int :=
  if amt < low then low else if high < amt then high else amt

/-- Two's-complement wrap of an integer into the Arduino Mega's 16-bit
    signed int range [-32768, 32767]. -/
def toInt16 (x : Int) : Int := (x + 32768) % 65536 - 32768

/-- The dynamic green delay computed at the top of `startGreenLight`
    (traffic_controller.ino lines 190-191):
    `int dynamicDelay = BASE_GREEN_DELAY + (vehicleCounts[road] * VEHICLE_FACTOR)`
    then `constrain(dynamicDelay, MIN_GREEN_DELAY, MAX_GREEN_DELAY)`.
    Both the multiplication and the addition are performed in the Mega's
    16-bit int and wrap. -/
def dynamicDelay (count : Int) : Int :=
  constrain (toInt16 (BASE_GREEN_DELAY + toInt16 (count * VEHICLE_FACTOR)))
    MIN_GREEN_DELAY MAX_GREEN_DELAY

/-- Whitespace test used by atol (Arduino String::toInt delegates to atol). -/
def isSpaceChar (c : Char) : Bool :=
  c = ' ' || c = '\t' || c = '\n' || c = '\x0b' || c = '\x0c' || c = '\r'

/-- Accumulate the leading decimal digits of a character list, atol-style. -/
def digitsAcc : List Char → Int → Int
  | [], acc => acc
  | c :: rest, acc =>
      if c.isDigit then digitsAcc rest (acc * 10 + ((c.toNat : Int) - 48)) else acc

/-- Arduino String::toInt (atol): skip leading whitespace, optional sign,
    then the leading run of digits; any other input yields 0. -/
def toIntChars (l : List Char) : Int :=
  match l.dropWhile isSpaceChar with
  | '-' :: rest => - digitsAcc rest 0
  | '+' :: rest => digitsAcc rest 0
  | l' => digitsAcc l' 0

/-- Arduino String::indexOf scanning loop, carrying the absolute index. -/
def indexOfAux (c : Char) : List Char → Nat → Option Nat
  | [], _ => none
  | x :: rest, i => if x = c then some i else indexOfAux c rest (i + 1)

/-- Arduino String::indexOf(ch, fromIndex): first index of `c` at or after
    `start`, or none (the source's -1 sentinel). -/
def indexOfFrom (c : Char) (l : List Char) (start : Nat) : Option Nat :=
  indexOfAux c (l.drop start) start

/-- Arduino String::replace("UPDATE:", ""): remove every occurrence of the
    seven characters of "UPDATE:", scanning left to right
    (traffic_controller.ino line 137). -/
def stripUpdates : List Char → List Char
  | 'U' :: 'P' :: 'D' :: 'A' :: 'T' :: 'E' :: ':' :: rest => stripUpdates rest
  | c :: rest => c :: stripUpdates rest
  | [] => []

/-- The four characters of the literal compared against the emergency field. -/
def trueChars : List Char := ['t', 'r', 'u', 'e']

/-- Outcome of `parseUpdateCommand` (variant 1): the two error replies
    ("Invalid UPDATE format", "Invalid road ID") or a successful update of
    one road recording the stored count and emergency flag. -/
inductive UpdateResult
  | invalidFormat
  | invalidRoadId
  | updated (road : Fin 4) (count : Int) (emergency : Bool)
deriving DecidableEq, Repr

/-- Control flow of `parseUpdateCommand` (traffic_controller.ino lines
    133-161): strip "UPDATE:", locate the two separating colons (error
    "Invalid UPDATE format" when either is missing), convert the road and
    count fields with toInt, compare the emergency field against "true",
    and range-check the zero-based road index against [0, NUM_ROADS).
    toInt returns a 32-bit long; the assignments `int road = ... - 1` and
    `int count = ...` truncate it to the Mega's 16-bit int (line 146-147),
    so e.g. a road field of 65537 wraps to index 0.  (Truncating to 16
    bits also absorbs any 32-bit wrap of atol itself, 2^16 dividing 2^32.) -/
def parseUpdateResult (cmd : List Char) : UpdateResult :=
  let c := stripUpdates cmd
  match indexOfFrom ':' c 0 with
  | none => .invalidFormat
  | some firstColon =>
    match indexOfFrom ':' c (firstColon + 1) with
    | none => .invalidFormat
    | some secondColon =>
      let road : Int := toInt16 (toIntChars (c.take firstColon) - 1)
      let count : Int := toInt16 (toIntChars ((c.take secondColon).drop (firstColon + 1)))
      let emergencyStr : List Char := c.drop (secondColon + 1)
      if h : 0 ≤ road ∧ road < 4 then
        .updated ⟨road.toNat, by omega⟩ count (emergencyStr == trueChars)
      else
        .invalidRoadId

/-- State effect of `parseUpdateCommand` (variant 1): on a successful parse
    the road's stored vehicle count and emergency flag are overwritten, on
    either error the stores are left untouched; the reply is returned as
    the third component. -/
def parseUpdateCommand (cmd : List Char) (counts : Fin 4 → Int) (emerg : Fin 4 → Bool) :
    (Fin 4 → Int) × (Fin 4 → Bool) × UpdateResult :=
  match parseUpdateResult cmd with
  | .updated r cnt em =>
      (Function.update counts r cnt, Function.update emerg r em, .updated r cnt em)
  | res => (counts, emerg, res)

/-- The road, if any, whose stored state a command line would overwrite. -/
def updateTarget (cmd : List Char) : Option (Fin 4) :=
  match parseUpdateResult cmd with
  | .updated r _ _ => some r
  | _ => none

/-- getHighestPriorityRoad (traffic_controller.ino lines 163-187): first
    road whose emergency flag is set, otherwise the linear scan keeping
    the first road whose count strictly exceeds the running maximum
    (initialised to maxCount = 0, selected = -1, modelled as none). -/
def getHighestPriorityRoad (counts : Fin 4 → Int) (emerg : Fin 4 → Bool) : Option (Fin 4) :=
  match roadList.find? (fun i => emerg i) with
  | some i => some i
  | none =>
      (roadList.foldl
        (fun acc i => if counts i > acc.1 then (counts i, some i) else acc)
        ((0 : Int), (none : Option (Fin 4)))).2

/-- The three LED pins of one road, as wired in greenLEDs / yellowLEDs /
    redLEDs. -/
inductive PinKind
  | redPin
  | yellowPin
  | greenPin
deriving DecidableEq

/-- digitalWrite on one pin of one road, leaving all other pins as they are. -/
def writePin (L : Fin 4 → LedState) (r : Fin 4) (k : PinKind) (v : Bool) :
    Fin 4 → LedState :=
  fun i =>
    if i = r then
      match k with
      | .redPin => { L r with red := v }
      | .yellowPin => { L r with yellow := v }
      | .greenPin => { L r with green := v }
    else L i

/-- allRedLights (traffic_controller.ino lines 224-230): every road red. -/
def allRedLights : Fin 4 → LedState := fun _ => redOnly

/-- Lights during the yellow dwell of road r (all others red). -/
def onlyYellow (r : Fin 4) : Fin 4 → LedState :=
  fun i => if i = r then ⟨false, true, false⟩ else redOnly

/-- Lights while road r is green (all others red). -/
def onlyGreen (r : Fin 4) : Fin 4 → LedState :=
  fun i => if i = r then ⟨false, false, true⟩ else redOnly

/-- Program counter of the polling loop: `top` is the head of loop();
    `startYellow r` is the blocking delay(YELLOW_DELAY) inside
    startGreenLight(r); `endYellow r` the one inside endGreenLight(r). -/
inductive PC
  | top
  | startYellow (r : Fin 4)
  | endYellow (r : Fin 4)
deriving DecidableEq

/-- Global state of variant 1 (traffic_controller.ino lines 16-24) plus the
    LED pins, the millisecond clock and the loop program counter. -/
structure Machine where
  lights : Fin 4 → LedState
  vehicleCounts : Fin 4 → Int
  emergencyStatus : Fin 4 → Bool
  trafficSystemRunning : Bool
  currentRoad : Option (Fin 4)
  greenEndTime : Nat
  greenActive : Bool
  now : Nat
  pc : PC

/-- STOP branch of handleSerialCommands (traffic_controller.ino lines
    112-118): stop the system, force all lights red, clear greenActive and
    currentRoad; vehicle counts and emergency flags are not touched. -/
def stopMachine (m : Machine) : Machine :=
  { m with trafficSystemRunning := false, lights := allRedLights,
           greenActive := false, currentRoad := none }

/-- Characters of the STATUS command. -/
def statusChars : List Char := ['S', 'T', 'A', 'T', 'U', 'S']

/-- Characters of the START command. -/
def startChars : List Char := ['S', 'T', 'A', 'R', 'T']

/-- Characters of the STOP command. -/
def stopChars : List Char := ['S', 'T', 'O', 'P']

/-- The seven characters of the UPDATE command header. -/
def updateHeader : List Char := ['U', 'P', 'D', 'A', 'T', 'E', ':']

/-- Command dispatch of handleSerialCommands (traffic_controller.ino lines
    105-124) on one complete, trimmed, non-empty line: STATUS replies only,
    START sets trafficSystemRunning, STOP stops, a line starting with
    "UPDATE:" goes to parseUpdateCommand, anything else replies
    "Unknown command". -/
def handleLine (line : List Char) (m : Machine) : Machine :=
  if line = statusChars then m
  else if line = startChars then { m with trafficSystemRunning := true }
  else if line = stopChars then stopMachine m
  else if List.isPrefixOf updateHeader line then
    let p := parseUpdateCommand line m.vehicleCounts m.emergencyStatus
    { m with vehicleCounts := p.1, emergencyStatus := p.2.1 }
  else m

/-- Labels naming the atomic transitions of the polling loop. -/
inductive Label
  | command (line : List Char)
  | advance (dt : Nat)
  | selectStart (r : Fin 4)
  | finishStartYellow (r : Fin 4)
  | beginEndYellow (r : Fin 4)
  | finishEndYellow (r : Fin 4)

/-- Small-step transition relation of variant 1's loop()
    (traffic_controller.ino lines 57-79).  Serial lines are handled at the
    top of the loop; `advance` lets millis() progress between passes;
    `selectStart` is the body of startGreenLight up to the blocking
    delay(YELLOW_DELAY) (greenEndTime is fixed before the LED writes),
    `finishStartYellow` its remainder plus the loop's greenActive := true;
    `beginEndYellow` / `finishEndYellow` split endGreenLight at its delay,
    the latter performing the count/emergency reset of lines 220-221 and
    the loop's greenActive := false, currentRoad := -1. -/
inductive Step : Machine → Label → Machine → Prop
  | command (m : Machine) (line : List Char) :
      m.pc = .top →
      Step m (.command line) (handleLine line m)
  | advance (m : Machine) (dt : Nat) :
      m.pc = .top →
      Step m (.advance dt) { m with now := m.now + dt }
  | selectStart (m : Machine) (r : Fin 4) :
      m.pc = .top → m.trafficSystemRunning = true → m.greenActive = false →
      getHighestPriorityRoad m.vehicleCounts m.emergencyStatus = some r →
      Step m (.selectStart r)
        { m with currentRoad := some r,
                 greenEndTime := m.now + (dynamicDelay (m.vehicleCounts r)).toNat,
                 lights := writePin (writePin allRedLights r .redPin false) r .yellowPin true,
                 pc := .startYellow r }
  | finishStartYellow (m : Machine) (r : Fin 4) :
      m.pc = .startYellow r →
      Step m (.finishStartYellow r)
        { m with now := m.now + YELLOW_DELAY,
                 lights := writePin (writePin m.lights r .yellowPin false) r .greenPin true,
                 greenActive := true,
                 pc := .top }
  | beginEndYellow (m : Machine) (r : Fin 4) :
      m.pc = .top → m.trafficSystemRunning = true → m.greenActive = true →
      m.currentRoad = some r → m.greenEndTime ≤ m.now →
      Step m (.beginEndYellow r)
        { m with lights := writePin (writePin m.lights r .greenPin false) r .yellowPin true,
                 pc := .endYellow r }
  | finishEndYellow (m : Machine) (r : Fin 4) :
      m.pc = .endYellow r →
      Step m (.finishEndYellow r)
        { m with now := m.now + YELLOW_DELAY,
                 lights := writePin (writePin m.lights r .yellowPin false) r .redPin true,
                 vehicleCounts := Function.update m.vehicleCounts r 0,
                 emergencyStatus := Function.update m.emergencyStatus r false,
                 greenActive := false,
                 currentRoad := none,
                 pc := .top }

/-- State after setup() (traffic_controller.ino lines 35-55): all red lights,
    zero counts, no emergencies, system stopped. -/
def initMachine : Machine :=
  { lights := allRedLights, vehicleCounts := fun _ => 0,
    emergencyStatus := fun _ => false, trafficSystemRunning := false,
    currentRoad := none, greenEndTime := 0, greenActive := false,
    now := 0, pc := .top }

/-- States reachable from the boot state under any sequence of serial
    commands and loop passes. -/
inductive Reach : Machine → Prop
  | init : Reach initMachine
  | step {m : Machine} {l : Label} {m' : Machine} :
      Reach m → Step m l m' → Reach m'

/-- Inductive invariant tying the loop program counter to the LED
    configuration: at the loop head the lights are all red (green phase
    inactive) or exactly the current road is green; during either yellow
    dwell exactly the dwelling road is yellow. -/
def LightsInv (m : Machine) : Prop :=
  (m.pc = PC.top →
    (m.greenActive = false ∧ m.lights = allRedLights) ∨
    (m.greenActive = true ∧ ∃ r, m.currentRoad = some r ∧ m.lights = onlyGreen r)) ∧
  (∀ r, m.pc = PC.startYellow r →
    m.lights = onlyYellow r ∧ m.greenActive = false ∧ m.currentRoad = some r) ∧
  (∀ r, m.pc = PC.endYellow r → m.lights = onlyYellow r)

end V1

namespace V2

/-- Normal green duration of variant 2 (traffic_controller.ino line 264). -/
def NORMAL_GREEN_TIME : Nat := 5000

/-- Emergency green duration constant of variant 2 (traffic_controller.ino
    line 265); declared as "8 seconds for emergency" and never read by the
    control logic. -/
def EMERGENCY_GREEN_TIME : Nat := 8000

/-- Yellow dwell of variant 2 (traffic_controller.ino line 266). -/
def YELLOW_TIME : Nat := 2000

/-- Global state of variant 2 (traffic_controller.ino lines 256-266) plus
    the LED pins.  Roads are 1-based in currentGreenRoad, as in the source. -/
structure State where
  currentGreenRoad : Nat
  vehicleCounts : Fin 4 → Int
  emergencyOverride : Fin 4 → Bool
  systemActive : Bool
  lastSwitchTime : Nat
  lights : Fin 4 → LedState

/-- setAllRed (traffic_controller.ino lines 433-449). -/
def setAllRed : Fin 4 → LedState := fun _ => redOnly

/-- setRoadGreen (traffic_controller.ino lines 451-472): setAllRed first,
    then drive the selected 1-based road green; a road outside 1..4 falls
    through the switch and leaves everything red. -/
def setRoadGreen (road : Nat) : Fin 4 → LedState :=
  fun i => if road = i.val + 1 then ⟨false, false, true⟩ else redOnly

/-- getEmergencyRoad (traffic_controller.ino lines 393-400): first road
    index with the emergency flag set, else -1 (modelled as none). -/
def getEmergencyRoad (emerg : Fin 4 → Bool) : Option (Fin 4) :=
  roadList.find? (fun i => emerg i)

/-- getHighestTrafficRoad (traffic_controller.ino lines 402-414): linear
    scan starting from maxVehicles = 0, maxRoad = 1; returns a 1-based road. -/
def getHighestTrafficRoad (counts : Fin 4 → Int) : Nat :=
  (roadList.foldl
    (fun acc i => if counts i > acc.1 then (counts i, i.val + 1) else acc)
    ((0 : Int), 1)).2

/-- Final state of switchToRoad (traffic_controller.ino lines 416-431):
    after the yellow dwell and the all-red gap, the new road is green and
    recorded in currentGreenRoad. -/
def switchToRoad (s : State) (road : Nat) : State :=
  { s with lights := setRoadGreen road, currentGreenRoad := road }

/-- manageTrafficLights (traffic_controller.ino lines 364-391): an active
    emergency road is switched to immediately (no elapsed-time test);
    otherwise, once NORMAL_GREEN_TIME has elapsed since lastSwitchTime the
    highest-traffic road is switched to, or the current road's green is
    extended by backdating lastSwitchTime by half a green time. -/
def manageTrafficLights (s : State) (currentTime : Nat) : State :=
  match getEmergencyRoad s.emergencyOverride with
  | some e =>
      if s.currentGreenRoad ≠ e.val + 1 then
        { switchToRoad s (e.val + 1) with lastSwitchTime := currentTime }
      else s
  | none =>
      if NORMAL_GREEN_TIME ≤ currentTime - s.lastSwitchTime then
        let nextRoad := getHighestTrafficRoad s.vehicleCounts
        if nextRoad ≠ s.currentGreenRoad then
          { switchToRoad s nextRoad with lastSwitchTime := currentTime }
        else
          { s with lastSwitchTime := currentTime - NORMAL_GREEN_TIME / 2 }
      else s

/-- STOP branch of processCommand (traffic_controller.ino lines 325-329):
    deactivate the system and set all lights red; currentGreenRoad,
    vehicle counts and emergency flags are not touched. -/
def processStop (s : State) : State :=
  { s with systemActive := false, lights := setAllRed }

/-- Field extraction of variant 2's parseUpdateCommand (traffic_controller
    lines 338-349): colons are searched from index 7 (past "UPDATE:"); if
    either is missing nothing happens (no reply).  `int road` and
    `int vehicles` (line 346-347) truncate toInt's 32-bit long to the
    Mega's 16-bit int, so e.g. a road field of 65537 wraps to road 1. -/
def parseUpdate (command : List Char) : Option (Int × Int × Bool) :=
  match V1.indexOfFrom ':' command 7 with
  | none => none
  | some firstColon =>
    match V1.indexOfFrom ':' command (firstColon + 1) with
    | none => none
    | some secondColon =>
      some (V1.toInt16 (V1.toIntChars ((command.take firstColon).drop 7)),
            V1.toInt16 (V1.toIntChars ((command.take secondColon).drop (firstColon + 1))),
            command.drop (secondColon + 1) == V1.trueChars)

/-- State effect of variant 2's parseUpdateCommand (traffic_controller.ino
    lines 350-360): a 1-based road in 1..4 has its count and emergency flag
    overwritten; anything else is silently ignored. -/
def parseUpdateCommand (command : List Char) (s : State) : State :=
  match parseUpdate command with
  | some (road, vehicles, emergency) =>
      if h : 1 ≤ road ∧ road ≤ 4 then
        { s with
          vehicleCounts := Function.update s.vehicleCounts ⟨(road - 1).toNat, by omega⟩ vehicles,
          emergencyOverride := Function.update s.emergencyOverride ⟨(road - 1).toNat, by omega⟩ emergency }
      else s
  | none => s

end V2

/-- Specification-side clamp: `clamp(x, lo, hi) = min(max(x, lo), hi)`. -/
def clamp (x lo hi : Int) : Int := min (max x lo) hi

/-- All-false emergency table. -/
def noEmergency : Fin 4 → Bool := fun _ => false

/-- All-zero vehicle counts. -/
def zeroCounts : Fin 4 → Int := fun _ => 0

/-- Vehicle counts [3, 9, 1, 0] from the spec's emergency-precedence example. -/
def countsDemo : Fin 4 → Int :=
  fun i => if i = 0 then 3 else if i = 1 then 9 else if i = 2 then 1 else 0

/-- Emergency on road 3 only (index 2), from the same spec example. -/
def emergDemo : Fin 4 → Bool := fun i => decide (i = 2)

/-- The command line UPDATE:1:abc:false (non-numeric count field). -/
def cmdNonNumeric : List Char :=
  ['U', 'P', 'D', 'A', 'T', 'E', ':', '1', ':', 'a', 'b', 'c', ':', 'f', 'a', 'l', 's', 'e']

/-- The command line UPDATE:9:5:true from the spec's invalid-input example. -/
def cmdOutOfRange : List Char :=
  ['U', 'P', 'D', 'A', 'T', 'E', ':', '9', ':', '5', ':', 't', 'r', 'u', 'e']

/-- The command line UPDATE:65537:5:true, whose out-of-range road field
    wraps into range under 16-bit truncation. -/
def cmdWrapRoad : List Char :=
  ['U', 'P', 'D', 'A', 'T', 'E', ':', '6', '5', '5', '3', '7', ':', '5', ':', 't', 'r', 'u', 'e']

/-- The eleven characters of UPDATE:1:5: (header, road 1, count 5). -/
def cmdHead15 : List Char :=
  ['U', 'P', 'D', 'A', 'T', 'E', ':', '1', ':', '5', ':']

/-- Stored state with 7 vehicles and an active emergency on road 1. -/
def cntBusy : Fin 4 → Int := fun i => if i = 0 then 7 else 0

/-- Emergency flag set on road 1 only (index 0). -/
def emgBusy : Fin 4 → Bool := fun i => decide (i = 0)

/-- Counts with 20 vehicles on road 1 and none elsewhere. -/
def cntTwenty : Fin 4 → Int := fun i => if i = 0 then 20 else 0

/-- Variant-2 state mid-green on road 2 at lastSwitchTime 0 with an
    emergency flagged on road 4. -/
def preemptState : V2.State :=
  { currentGreenRoad := 2, vehicleCounts := zeroCounts,
    emergencyOverride := fun i => decide (i.val = 3), systemActive := true,
    lastSwitchTime := 0, lights := V2.setRoadGreen 2 }

/-- Variant-2 state mid-green on road 2 at lastSwitchTime 0 with no
    emergency anywhere. -/
def calmState : V2.State :=
  { currentGreenRoad := 2, vehicleCounts := zeroCounts,
    emergencyOverride := noEmergency, systemActive := true,
    lastSwitchTime := 0, lights := V2.setRoadGreen 2 }

/-- Variant-2 state mid-green on road 2 at lastSwitchTime 0, road 2
    holding 4 stored vehicles and an active emergency, and a second
    emergency pending on road 1 that will preempt it. -/
def servedDemandState : V2.State :=
  { currentGreenRoad := 2, vehicleCounts := fun i => if i = 1 then 4 else 0,
    emergencyOverride := fun i => decide (i.val ≤ 1), systemActive := true,
    lastSwitchTime := 0, lights := V2.setRoadGreen 2 }

/-- Variant-2 state mid-green on road 2 at lastSwitchTime 0 with the
    emergency flagged on road 2 itself. -/
def emergencyServedState : V2.State :=
  { currentGreenRoad := 2, vehicleCounts := zeroCounts,
    emergencyOverride := fun i => decide (i.val = 1), systemActive := true,
    lastSwitchTime := 0, lights := V2.setRoadGreen 2 }

/-- Variant-1 machine parked in the yellow-exit dwell of road 1's green
    phase, with stored demand on every road. -/
def endingMachine : V1.Machine :=
  { lights := V1.onlyYellow 0, vehicleCounts := fun _ => 5,
    emergencyStatus := fun _ => true, trafficSystemRunning := true,
    currentRoad := some 0, greenEndTime := 7000, greenActive := true,
    now := 8000, pc := .endYellow 0 }

/-- The machine reached from endingMachine by completing endGreenLight. -/
def endedMachine : V1.Machine :=
  { endingMachine with
      now := endingMachine.now + V1.YELLOW_DELAY,
      lights := V1.writePin (V1.writePin endingMachine.lights 0 .yellowPin false) 0 .redPin true,
      vehicleCounts := Function.update endingMachine.vehicleCounts 0 0,
      emergencyStatus := Function.update endingMachine.emergencyStatus 0 false,
      greenActive := false,
      currentRoad := none,
      pc := .top }

/-- C4 counterexample: at vehicleCount 100 the 16-bit sum
    5000 + 100 * 300 = 35000 wraps to -30536 and constrain returns
    MIN_GREEN_DELAY (3000 ms), while the spec's clamp formula yields
    MAX_GREEN_DELAY (15000 ms), so the computed duration does not equal
    the clamp for arbitrarily large counts. -/
theorem int16_overflow_shrinks_green :
    V1.dynamicDelay 100 = 3000 ∧
    clamp (V1.BASE_GREEN_DELAY + 100 * V1.VEHICLE_FACTOR)
      V1.MIN_GREEN_DELAY V1.MAX_GREEN_DELAY = 15000 := by
  constructor <;> decide

/-- C4 amended: for vehicleCounts between 0 and 92 (where the 16-bit
    arithmetic does not wrap) the computed green duration equals
    clamp(baseGreenMs + vehicleCount * perVehicleExtensionMs, minGreenMs,
    maxGreenMs); for every vehicleCount, wrapped or not, the computed
    duration still lies between minGreenMs and maxGreenMs, since constrain
    bounds whatever value the wrapped arithmetic produced. -/
theorem bounded_green_duration (v : Int) :
    (0 ≤ v → v ≤ 92 →
      V1.dynamicDelay v =
        clamp (V1.BASE_GREEN_DELAY + v * V1.VEHICLE_FACTOR)
          V1.MIN_GREEN_DELAY V1.MAX_GREEN_DELAY) ∧
    V1.MIN_GREEN_DELAY ≤ V1.dynamicDelay v ∧ V1.dynamicDelay v ≤ V1.MAX_GREEN_DELAY := by
  refine ⟨fun h1 h2 => ?_, ?_, ?_⟩
  · have hm1 : V1.toInt16 (v * V1.VEHICLE_FACTOR) = v * V1.VEHICLE_FACTOR := by
      unfold V1.toInt16 V1.VEHICLE_FACTOR
      omega
    have hm2 : V1.toInt16 (V1.BASE_GREEN_DELAY + v * V1.VEHICLE_FACTOR)
        = V1.BASE_GREEN_DELAY + v * V1.VEHICLE_FACTOR := by
      unfold V1.toInt16 V1.BASE_GREEN_DELAY V1.VEHICLE_FACTOR
      omega
    unfold V1.dynamicDelay
    rw [hm1, hm2]
    unfold V1.constrain clamp V1.BASE_GREEN_DELAY V1.MIN_GREEN_DELAY V1.MAX_GREEN_DELAY
      V1.VEHICLE_FACTOR
    simp only [min_def, max_def]
    split_ifs <;> omega
  · unfold V1.dynamicDelay V1.constrain V1.MIN_GREEN_DELAY V1.MAX_GREEN_DELAY
    split_ifs <;> omega
  · unfold V1.dynamicDelay V1.constrain V1.MIN_GREEN_DELAY V1.MAX_GREEN_DELAY
    split_ifs <;> omega

/-- Witness for C4's amended theorem at vehicleCount 10: duration 8000 ms,
    equal to the clamp and within bounds. -/
theorem bounded_green_duration_witness :
    V1.dynamicDelay 10 =
      clamp (V1.BASE_GREEN_DELAY + 10 * V1.VEHICLE_FACTOR)
        V1.MIN_GREEN_DELAY V1.MAX_GREEN_DELAY ∧
    V1.MIN_GREEN_DELAY ≤ V1.dynamicDelay 10 ∧ V1.dynamicDelay 10 ≤ V1.MAX_GREEN_DELAY :=
  ⟨(bounded_green_duration 10).1 (by decide) (by decide), (bounded_green_duration 10).2⟩

/-- C3: whenever at least one road has its emergency flag set, both
    variants' arbitration (getHighestPriorityRoad and getEmergencyRoad)
    select the lowest-numbered such road, regardless of vehicle counts. -/
theorem emergency_precedence (counts : Fin 4 → Int) (emerg : Fin 4 → Bool)
    (h : ∃ i, emerg i = true) :
    ∃ r, V1.getHighestPriorityRoad counts emerg = some r ∧
         V2.getEmergencyRoad emerg = some r ∧
         emerg r = true ∧ ∀ j, emerg j = true → r ≤ j := by
  by_cases h0 : emerg 0 = true
  · refine ⟨0, ?_, ?_, h0, fun j _ => Fin.zero_le j⟩ <;>
      simp [V1.getHighestPriorityRoad, V2.getEmergencyRoad, roadList, List.find?, h0]
  · by_cases h1 : emerg 1 = true
    · refine ⟨1, ?_, ?_, h1, ?_⟩ <;>
        first
        | simp [V1.getHighestPriorityRoad, V2.getEmergencyRoad, roadList, List.find?, h0, h1]
        | (intro j hj; fin_cases j)
      · exact absurd hj h0
      all_goals decide
    · by_cases h2 : emerg 2 = true
      · refine ⟨2, ?_, ?_, h2, ?_⟩ <;>
          first
          | simp [V1.getHighestPriorityRoad, V2.getEmergencyRoad, roadList, List.find?, h0, h1, h2]
          | (intro j hj; fin_cases j)
        · exact absurd hj h0
        · exact absurd hj h1
        all_goals decide
      · by_cases h3 : emerg 3 = true
        · refine ⟨3, ?_, ?_, h3, ?_⟩ <;>
            first
            | simp [V1.getHighestPriorityRoad, V2.getEmergencyRoad, roadList, List.find?,
                h0, h1, h2, h3]
            | (intro j hj; fin_cases j)
          · exact absurd hj h0
          · exact absurd hj h1
          · exact absurd hj h2
          · decide
        · obtain ⟨i, hi⟩ := h
          fin_cases i <;> simp_all

/-- Witness for C3 at the spec's example: counts [3, 9, 1, 0] with the
    emergency flag on road 3 (index 2). -/
theorem emergency_precedence_witness :
    ∃ r, V1.getHighestPriorityRoad countsDemo emergDemo = some r ∧
         V2.getEmergencyRoad emergDemo = some r ∧
         emergDemo r = true ∧ ∀ j, emergDemo j = true → r ≤ j :=
  emergency_precedence countsDemo emergDemo ⟨2, rfl⟩

/-- C5 counterexample: with every count zero and no emergency, variant 1's
    arbitration selects no road at all (the -1 sentinel) instead of the
    round-robin successor of the currently served road claimed by the
    spec, and variant 2's scan returns the fixed default road 1. -/
theorem allzero_selects_none :
    V1.getHighestPriorityRoad zeroCounts noEmergency = none ∧
    V2.getHighestTrafficRoad zeroCounts = 1 :=
  ⟨rfl, rfl⟩

/-- C5 amended: absent any emergency, a road returned by variant 1's
    arbitration has a strictly positive count that is maximal, with ties
    broken towards the lowest road id; when every count is non-positive no
    road is returned (there is no round-robin fallback), and whenever some
    count is positive a road is returned. -/
theorem highest_count_selection (counts : Fin 4 → Int) (emerg : Fin 4 → Bool)
    (hno : ∀ i, emerg i = false) :
    (∀ r, V1.getHighestPriorityRoad counts emerg = some r →
        0 < counts r ∧ ∀ j, counts j ≤ counts r ∧ (counts j = counts r → r ≤ j)) ∧
    ((∀ i, counts i ≤ 0) → V1.getHighestPriorityRoad counts emerg = none) ∧
    ((∃ i, 0 < counts i) → (V1.getHighestPriorityRoad counts emerg).isSome = true) := by
  have hfind : roadList.find? (fun i => emerg i) = none := by
    simp [roadList, List.find?, hno]
  unfold V1.getHighestPriorityRoad
  rw [hfind]
  simp only [roadList, List.foldl]
  refine ⟨?_, ?_, ?_⟩
  · intro r hr
    split_ifs at hr with h0 h1 h2 h3 <;>
      (try cases hr) <;>
      (refine ⟨by omega, fun j => ?_⟩; fin_cases j <;> simp only [Fin.reduceFinMk] <;>
        refine ⟨by omega, fun hEq => ?_⟩ <;> first | decide | (exfalso; omega))
  · intro hle
    have l0 := hle 0; have l1 := hle 1; have l2 := hle 2; have l3 := hle 3
    split_ifs <;> first | rfl | (exfalso; omega)
  · rintro ⟨i, hi⟩
    split_ifs with h0 h1 h2 h3 <;>
      first
      | (simp; done)
      | (exfalso; fin_cases i <;> simp only [Fin.reduceFinMk] at hi <;> omega)

/-- Witness for C5's amended theorem: with counts [3, 9, 1, 0] and no
    emergency, a road is selected. -/
theorem highest_count_selection_witness :
    (V1.getHighestPriorityRoad countsDemo noEmergency).isSome = true :=
  (highest_count_selection countsDemo noEmergency (fun _ => rfl)).2.2 ⟨1, by decide⟩

/-- C7 counterexample, two malformed commands that are not rejected.
    UPDATE:1:abc:false has a non-numeric count field, yet toInt parses
    "abc" as 0 and the update succeeds, overwriting road 1's stored count
    (7 becomes 0) and emergency flag (true becomes false).
    UPDATE:65537:5:true has a road id far outside [1..4], yet the 16-bit
    truncation wraps 65537 to road 1 in both variants, so the update
    succeeds and overwrites road 1 instead of failing with InvalidRoadId. -/
theorem malformed_update_overwrites_state :
    (V1.parseUpdateCommand cmdNonNumeric cntBusy emgBusy).2.2 = .updated 0 0 false ∧
    (V1.parseUpdateCommand cmdNonNumeric cntBusy emgBusy).1 0 = 0 ∧
    cntBusy 0 = 7 ∧
    (V1.parseUpdateCommand cmdNonNumeric cntBusy emgBusy).2.1 0 = false ∧
    emgBusy 0 = true ∧
    V1.parseUpdateResult cmdWrapRoad = .updated 0 5 true ∧
    (V1.parseUpdateCommand cmdWrapRoad cntBusy emgBusy).1 0 = 5 ∧
    (V2.parseUpdateCommand cmdWrapRoad calmState).vehicleCounts 0 = 5 ∧
    (V2.parseUpdateCommand cmdWrapRoad calmState).emergencyOverride 0 = true := by
  decide

/-- C7 amended: whenever parseUpdateCommand reports either error (missing
    colon fields, or a road whose 16-bit-truncated id lies outside
    [1..4]), every road's stored vehicle count and emergency flag are left
    unchanged. -/
theorem invalid_update_unchanged (cmd : List Char) (counts : Fin 4 → Int) (emerg : Fin 4 → Bool)
    (h : (V1.parseUpdateCommand cmd counts emerg).2.2 = .invalidFormat ∨
         (V1.parseUpdateCommand cmd counts emerg).2.2 = .invalidRoadId) :
    (V1.parseUpdateCommand cmd counts emerg).1 = counts ∧
    (V1.parseUpdateCommand cmd counts emerg).2.1 = emerg := by
  unfold V1.parseUpdateCommand at h ⊢
  cases hres : V1.parseUpdateResult cmd <;> simp [hres] at h ⊢

/-- Witness for C7's amended theorem at the spec's example UPDATE 9 5 true:
    road 9 is out of range, the reply is the road-id error, and the stores
    are untouched. -/
theorem invalid_update_unchanged_witness :
    (V1.parseUpdateCommand cmdOutOfRange cntBusy emgBusy).1 = cntBusy ∧
    (V1.parseUpdateCommand cmdOutOfRange cntBusy emgBusy).2.1 = emgBusy :=
  invalid_update_unchanged cmdOutOfRange cntBusy emgBusy (Or.inr (by decide))

/-- Removing occurrences of UPDATE: leaves a colon-free list unchanged. -/
lemma strip_of_no_colon (l : List Char) (h : ':' ∉ l) : V1.stripUpdates l = l := by
  induction l using V1.stripUpdates.induct with
  | case1 rest ih => simp at h
  | case2 c rest h2 ih =>
    rw [V1.stripUpdates.eq_def]
    split
    · rename_i rest1 heq
      exfalso
      apply h
      rw [heq]
      simp
    · rename_i c2 rest2 hne heq
      injection heq with hc hrest
      subst hc
      subst hrest
      rw [ih (fun hm => h (List.mem_cons_of_mem c hm))]
    · rename_i heq
      exact absurd heq (by simp)
  | case3 => rfl

/-- Stripping UPDATE: from UPDATE:1:5: followed by a colon-free emergency
    field removes exactly the header. -/
lemma strip_cmdHead (estr : List Char) (h : ':' ∉ estr) :
    V1.stripUpdates (cmdHead15 ++ estr) = '1' :: ':' :: '5' :: ':' :: estr := by
  show V1.stripUpdates
      ('U' :: 'P' :: 'D' :: 'A' :: 'T' :: 'E' :: ':' :: '1' :: ':' :: '5' :: ':' :: estr) =
      '1' :: ':' :: '5' :: ':' :: estr
  rw [show V1.stripUpdates
        ('U' :: 'P' :: 'D' :: 'A' :: 'T' :: 'E' :: ':' :: '1' :: ':' :: '5' :: ':' :: estr) =
        '1' :: ':' :: '5' :: ':' :: V1.stripUpdates estr from rfl]
  rw [strip_of_no_colon estr h]

/-- Variant 1 parses UPDATE:1:5:estr as an update of road 1 with count 5
    whose stored emergency flag is the exact comparison of the emergency
    field with "true". -/
lemma parse_cmdHead (estr : List Char) (h : ':' ∉ estr) :
    V1.parseUpdateResult (cmdHead15 ++ estr) = .updated 0 5 (estr == V1.trueChars) := by
  unfold V1.parseUpdateResult
  simp only [strip_cmdHead estr h]
  rfl

/-- C10: for a well-formed UPDATE with a valid road id, both variants
    accept any emergency field without error and store true exactly when
    the field is the literal "true"; every other token is stored as false. -/
theorem emergency_field_exact_true (estr : List Char) (counts : Fin 4 → Int)
    (emerg : Fin 4 → Bool) (s : V2.State) (h : ':' ∉ estr) :
    (V1.parseUpdateCommand (cmdHead15 ++ estr) counts emerg).2.2
        = .updated 0 5 (estr == V1.trueChars) ∧
    (V1.parseUpdateCommand (cmdHead15 ++ estr) counts emerg).2.1 0 = (estr == V1.trueChars) ∧
    (V2.parseUpdateCommand (cmdHead15 ++ estr) s).emergencyOverride 0 = (estr == V1.trueChars) ∧
    (V2.parseUpdateCommand (cmdHead15 ++ estr) s).vehicleCounts 0 = 5 := by
  have hp := parse_cmdHead estr h
  have hv2 : V2.parseUpdate (cmdHead15 ++ estr) = some (1, 5, (estr == V1.trueChars)) := rfl
  unfold V1.parseUpdateCommand V2.parseUpdateCommand
  rw [hp, hv2]
  simp

/-- Witness for C10 with the emergency field TRUE: accepted without error
    and stored as false in both variants. -/
theorem emergency_field_exact_true_witness :
    (V1.parseUpdateCommand (cmdHead15 ++ ['T', 'R', 'U', 'E']) cntBusy emgBusy).2.2
        = .updated 0 5 false ∧
    (V1.parseUpdateCommand (cmdHead15 ++ ['T', 'R', 'U', 'E']) cntBusy emgBusy).2.1 0 = false ∧
    (V2.parseUpdateCommand (cmdHead15 ++ ['T', 'R', 'U', 'E']) calmState).emergencyOverride 0
        = false ∧
    (V2.parseUpdateCommand (cmdHead15 ++ ['T', 'R', 'U', 'E']) calmState).vehicleCounts 0 = 5 :=
  emergency_field_exact_true ['T', 'R', 'U', 'E'] cntBusy emgBusy calmState (by decide)

/-- C2 counterexample: with road 2 green since time 0 and an emergency
    arriving on road 4, a tick at time 100 (only 100 ms of green, far below
    the 3000 ms minimum green) immediately switches the green to road 4,
    preempting road 2 before minGreenMs has elapsed. -/
theorem emergency_preempts_before_min_green :
    (V2.manageTrafficLights preemptState 100).currentGreenRoad = 4 ∧
    (V2.manageTrafficLights preemptState 100).lights 1 = redOnly ∧
    preemptState.currentGreenRoad = 2 ∧
    nonRed (preemptState.lights 1) = true ∧
    ((100 : Int) - (preemptState.lastSwitchTime : Int)) < V1.MIN_GREEN_DELAY :=
  ⟨rfl, rfl, rfl, rfl, by decide⟩

/-- C2 amended: normal (demand-based) switching never cuts a green short
    before NORMAL_GREEN_TIME has elapsed since the last switch, but an
    emergency for a road other than the current one preempts immediately,
    with no minimum-green floor. -/
theorem min_green_only_for_normal_switching :
    (∀ (s : V2.State) (t : Nat), V2.getEmergencyRoad s.emergencyOverride = none →
        t - s.lastSwitchTime < V2.NORMAL_GREEN_TIME → V2.manageTrafficLights s t = s) ∧
    (∀ (s : V2.State) (t : Nat) (e : Fin 4), V2.getEmergencyRoad s.emergencyOverride = some e →
        s.currentGreenRoad ≠ e.val + 1 →
        (V2.manageTrafficLights s t).currentGreenRoad = e.val + 1 ∧
        (V2.manageTrafficLights s t).lastSwitchTime = t) := by
  constructor
  · intro s t he hlt
    unfold V2.manageTrafficLights
    rw [he]
    rw [if_neg (by omega)]
  · intro s t e he hne
    unfold V2.manageTrafficLights
    rw [he]
    simp [hne, V2.switchToRoad]

/-- Witness for C2's amended theorem: mid-green with no emergency, a tick
    100 ms after the switch changes nothing. -/
theorem min_green_only_for_normal_switching_witness :
    V2.manageTrafficLights calmState 100 = calmState :=
  min_green_only_for_normal_switching.1 calmState 100 rfl (by decide)

/-- C6: the code never applies a fixed emergencyGreenMs duration.  In
    variant 2 the emergency road is still green 20000 ms after its switch,
    well past the declared-but-unread EMERGENCY_GREEN_TIME of 8000 ms (it
    stays green for as long as the flag is set); in variant 1 an
    emergency-selected road's duration follows the vehicle-count clamp
    formula (5000 ms at count 0, 11000 ms at count 20), so it is not any
    fixed value. -/
theorem emergency_green_ignores_duration :
    V2.manageTrafficLights emergencyServedState 20000 = emergencyServedState ∧
    nonRed (emergencyServedState.lights 1) = true ∧
    V2.EMERGENCY_GREEN_TIME < 20000 - emergencyServedState.lastSwitchTime ∧
    V1.getHighestPriorityRoad cntTwenty emgBusy = some 0 ∧
    V1.getHighestPriorityRoad zeroCounts emgBusy = some 0 ∧
    V1.dynamicDelay (cntTwenty 0) = 11000 ∧
    V1.dynamicDelay (zeroCounts 0) = 5000 :=
  ⟨rfl, rfl, by decide, by decide, by decide, by decide, by decide⟩

/-- C9 counterexample: variant 2's STOP branch forces the lights red and
    deactivates the system but leaves currentGreenRoad at its previous
    value 2, so a road is still marked as served after stop. -/
theorem stop_keeps_served_road_marker :
    (V2.processStop calmState).currentGreenRoad = 2 ∧
    (V2.processStop calmState).systemActive = false ∧
    (V2.processStop calmState).lights = V2.setAllRed :=
  ⟨rfl, rfl, rfl⟩

/-- C9 amended: in both variants STOP deactivates the session and forces
    every light to red immediately while leaving all stored vehicle counts
    and emergency flags unchanged; variant 1 also clears greenActive and
    the served-road marker, whereas variant 2 leaves currentGreenRoad at
    its previous value. -/
theorem stop_forces_all_red_keeps_counts (m : V1.Machine) (s : V2.State) :
    (V1.stopMachine m).trafficSystemRunning = false ∧
    (V1.stopMachine m).lights = V1.allRedLights ∧
    (V1.stopMachine m).greenActive = false ∧
    (V1.stopMachine m).currentRoad = none ∧
    (V1.stopMachine m).vehicleCounts = m.vehicleCounts ∧
    (V1.stopMachine m).emergencyStatus = m.emergencyStatus ∧
    (V2.processStop s).systemActive = false ∧
    (V2.processStop s).lights = V2.setAllRed ∧
    (V2.processStop s).vehicleCounts = s.vehicleCounts ∧
    (V2.processStop s).emergencyOverride = s.emergencyOverride ∧
    (V2.processStop s).currentGreenRoad = s.currentGreenRoad :=
  ⟨rfl, rfl, rfl, rfl, rfl, rfl, rfl, rfl, rfl, rfl, rfl⟩

/-- Command dispatch leaves a road's stored count and emergency flag
    unchanged unless the line is an update targeting that road. -/
lemma handleLine_frame (line : List Char) (m : V1.Machine) (r : Fin 4)
    (h : V1.updateTarget line ≠ some r) :
    (V1.handleLine line m).vehicleCounts r = m.vehicleCounts r ∧
    (V1.handleLine line m).emergencyStatus r = m.emergencyStatus r := by
  unfold V1.handleLine V1.stopMachine
  split_ifs with h1 h2 h3 h4 <;> (try exact ⟨rfl, rfl⟩)
  unfold V1.updateTarget at h
  unfold V1.parseUpdateCommand
  cases hres : V1.parseUpdateResult line with
  | invalidFormat => exact ⟨rfl, rfl⟩
  | invalidRoadId => exact ⟨rfl, rfl⟩
  | updated r0 cnt em =>
    rw [hres] at h
    have hne : r ≠ r0 := fun he => h (by rw [he])
    simp [Function.update_apply, hne]

/-- C8 counterexample: in variant 2, road 2 is green with 4 stored
    vehicles and an active emergency flag when a higher-priority emergency
    on road 1 preempts it; after the switch road 2 is red (its green phase
    has concluded) yet its stored vehicleCount is still 4 and its
    emergency flag still true — variant 2 never resets a served road. -/
theorem v2_no_reset_after_green :
    (V2.manageTrafficLights servedDemandState 100).currentGreenRoad = 1 ∧
    nonRed ((V2.manageTrafficLights servedDemandState 100).lights 1) = false ∧
    (V2.manageTrafficLights servedDemandState 100).vehicleCounts 1 = 4 ∧
    (V2.manageTrafficLights servedDemandState 100).emergencyOverride 1 = true := by
  decide

/-- C8 amended: in the polling variant, completing endGreenLight for road
    r zeroes r's stored vehicle count and clears its emergency flag, and
    every step other than an UPDATE command targeting r preserves the
    cleared 0/false state; the event-driven variant never resets — its
    tick function leaves every stored count and flag exactly as they were,
    so they persist when a road's green concludes, until the next UPDATE. -/
theorem post_green_reset :
    (∀ (m : V1.Machine) (l : V1.Label) (m' : V1.Machine) (r : Fin 4), V1.Step m l m' →
      (l = .finishEndYellow r → m'.vehicleCounts r = 0 ∧ m'.emergencyStatus r = false) ∧
      (m.vehicleCounts r = 0 → m.emergencyStatus r = false →
       (∀ line, l = .command line → V1.updateTarget line ≠ some r) →
       m'.vehicleCounts r = 0 ∧ m'.emergencyStatus r = false)) ∧
    (∀ (s : V2.State) (t : Nat),
      (V2.manageTrafficLights s t).vehicleCounts = s.vehicleCounts ∧
      (V2.manageTrafficLights s t).emergencyOverride = s.emergencyOverride) := by
  constructor
  · intro m l m' r hs
    cases hs with
    | command line hpc =>
      refine ⟨fun hl => (nomatch hl), fun hc he hcmd => ?_⟩
      have hf := handleLine_frame line m r (hcmd line rfl)
      rw [hf.1, hf.2]
      exact ⟨hc, he⟩
    | advance dt hpc => exact ⟨fun hl => (nomatch hl), fun hc he _ => ⟨hc, he⟩⟩
    | selectStart r0 hpc hrun hga hsel =>
      exact ⟨fun hl => (nomatch hl), fun hc he _ => ⟨hc, he⟩⟩
    | finishStartYellow r0 hpc =>
      exact ⟨fun hl => (nomatch hl), fun hc he _ => ⟨hc, he⟩⟩
    | beginEndYellow r0 hpc hrun hga hcur hend =>
      exact ⟨fun hl => (nomatch hl), fun hc he _ => ⟨hc, he⟩⟩
    | finishEndYellow r0 hpc =>
      constructor
      · intro hl
        injection hl with hr
        subst hr
        simp [Function.update_apply]
      · intro hc he _
        by_cases hrr : r = r0
        · subst hrr
          simp [Function.update_apply]
        · simp [Function.update_apply, hrr, hc, he]
  · intro s t
    unfold V2.manageTrafficLights V2.switchToRoad
    split
    · split_ifs <;> exact ⟨rfl, rfl⟩
    · split_ifs with hA
      · by_cases hc : V2.getHighestTrafficRoad s.vehicleCounts ≠ s.currentGreenRoad <;>
          simp [hc]
      · exact ⟨rfl, rfl⟩

/-- Witness for C8's amended theorem: completing road 1's end-of-green
    from a state with 5 stored vehicles and an active emergency leaves
    count 0 and flag false. -/
theorem post_green_reset_witness :
    endedMachine.vehicleCounts 0 = 0 ∧ endedMachine.emergencyStatus 0 = false :=
  (post_green_reset.1 endingMachine (.finishEndYellow 0) endedMachine 0
      (V1.Step.finishEndYellow endingMachine 0 rfl)).1 rfl


/-- startGreenLight's first two digitalWrites turn the all-red board into
    the yellow-entering configuration of the selected road. -/
lemma writeStartYellow (r : Fin 4) :
    V1.writePin (V1.writePin V1.allRedLights r .redPin false) r .yellowPin true =
      V1.onlyYellow r := by
  funext i
  by_cases h : i = r <;> simp [V1.writePin, V1.allRedLights, V1.onlyYellow, redOnly, h]

/-- startGreenLight's last two digitalWrites turn yellow-entering into the
    green configuration. -/
lemma writeGreenOn (r : Fin 4) :
    V1.writePin (V1.writePin (V1.onlyYellow r) r .yellowPin false) r .greenPin true =
      V1.onlyGreen r := by
  funext i
  by_cases h : i = r <;> simp [V1.writePin, V1.onlyYellow, V1.onlyGreen, redOnly, h]

/-- endGreenLight's first two digitalWrites turn green into yellow-exiting. -/
lemma writeEndYellowOn (r : Fin 4) :
    V1.writePin (V1.writePin (V1.onlyGreen r) r .greenPin false) r .yellowPin true =
      V1.onlyYellow r := by
  funext i
  by_cases h : i = r <;> simp [V1.writePin, V1.onlyYellow, V1.onlyGreen, redOnly, h]

/-- endGreenLight's last two digitalWrites restore the all-red board. -/
lemma writeEndRed (r : Fin 4) :
    V1.writePin (V1.writePin (V1.onlyYellow r) r .yellowPin false) r .redPin true =
      V1.allRedLights := by
  funext i
  by_cases h : i = r <;> simp [V1.writePin, V1.allRedLights, V1.onlyYellow, redOnly, h]

/-- The boot state satisfies the lights invariant. -/
lemma lightsInv_init : V1.LightsInv V1.initMachine :=
  ⟨fun _ => Or.inl ⟨rfl, rfl⟩,
   fun r h => absurd h (by simp [V1.initMachine]),
   fun r h => absurd h (by simp [V1.initMachine])⟩

/-- Every loop transition preserves the lights invariant. -/
lemma lightsInv_step (m : V1.Machine) (l : V1.Label) (m' : V1.Machine)
    (hs : V1.Step m l m') (hi : V1.LightsInv m) : V1.LightsInv m' := by
  obtain ⟨htop, hsy, hey⟩ := hi
  cases hs with
  | command line hpc =>
    unfold V1.handleLine V1.stopMachine
    split_ifs with h1 h2 h3 h4
    · exact ⟨htop, hsy, hey⟩
    · exact ⟨htop, hsy, hey⟩
    · refine ⟨fun _ => Or.inl ⟨rfl, rfl⟩, fun r h => ?_, fun r h => ?_⟩ <;>
        exact absurd ((hpc.symm.trans h)) (by simp)
    · exact ⟨htop, hsy, hey⟩
    · exact ⟨htop, hsy, hey⟩
  | advance dt hpc => exact ⟨htop, hsy, hey⟩
  | selectStart r0 hpc hrun hga hsel =>
    refine ⟨fun h => absurd h (by simp), fun r h => ?_, fun r h => absurd h (by simp)⟩
    injection h with hr
    subst hr
    exact ⟨writeStartYellow r0, hga, rfl⟩
  | finishStartYellow r0 hpc =>
    obtain ⟨hl, hga, hcur⟩ := hsy r0 hpc
    refine ⟨fun _ => Or.inr ⟨rfl, r0, hcur, ?_⟩,
            fun r h => absurd h (by simp), fun r h => absurd h (by simp)⟩
    show V1.writePin (V1.writePin m.lights r0 .yellowPin false) r0 .greenPin true =
      V1.onlyGreen r0
    rw [hl, writeGreenOn]
  | beginEndYellow r0 hpc hrun hga hcur hend =>
    rcases htop hpc with ⟨hga', _⟩ | ⟨_, r1, hcur1, hl⟩
    · rw [hga] at hga'
      cases hga'
    · have hr1 : r1 = r0 := by
        rw [hcur] at hcur1
        injection hcur1 with h
        exact h.symm
      subst hr1
      refine ⟨fun h => absurd h (by simp), fun r h => absurd h (by simp), fun r h => ?_⟩
      injection h with hr
      subst hr
      show V1.writePin (V1.writePin m.lights r1 .greenPin false) r1 .yellowPin true =
        V1.onlyYellow r1
      rw [hl, writeEndYellowOn]
  | finishEndYellow r0 hpc =>
    have hl := hey r0 hpc
    refine ⟨fun _ => Or.inl ⟨rfl, ?_⟩,
            fun r h => absurd h (by simp), fun r h => absurd h (by simp)⟩
    show V1.writePin (V1.writePin m.lights r0 .yellowPin false) r0 .redPin true =
      V1.allRedLights
    rw [hl, writeEndRed]

/-- The lights invariant holds in every reachable state. -/
lemma lightsInv_reach (m : V1.Machine) (h : V1.Reach m) : V1.LightsInv m := by
  induction h with
  | init => exact lightsInv_init
  | step hr hs ih => exact lightsInv_step _ _ _ hs ih

/-- The all-red configuration has no non-red road. -/
lemma shape_allRed :
    (∀ i j : Fin 4, nonRed (V1.allRedLights i) = true → nonRed (V1.allRedLights j) = true →
        i = j) ∧
    (∀ i : Fin 4, nonRed (V1.allRedLights i) = false → V1.allRedLights i = redOnly) := by
  constructor <;> intro i <;> simp [V1.allRedLights, nonRed, redOnly]

/-- A single-yellow configuration has exactly one non-red road. -/
lemma shape_onlyYellow (r : Fin 4) :
    (∀ i j : Fin 4, nonRed (V1.onlyYellow r i) = true → nonRed (V1.onlyYellow r j) = true →
        i = j) ∧
    (∀ i : Fin 4, nonRed (V1.onlyYellow r i) = false → V1.onlyYellow r i = redOnly) := by
  constructor
  · intro i j hi hj
    by_cases h1 : i = r <;> by_cases h2 : j = r <;>
      simp [V1.onlyYellow, nonRed, redOnly, h1, h2] at hi hj ⊢
  · intro i hi
    by_cases h1 : i = r <;> simp [V1.onlyYellow, nonRed, redOnly, h1] at hi ⊢

/-- A single-green configuration has exactly one non-red road. -/
lemma shape_onlyGreen (r : Fin 4) :
    (∀ i j : Fin 4, nonRed (V1.onlyGreen r i) = true → nonRed (V1.onlyGreen r j) = true →
        i = j) ∧
    (∀ i : Fin 4, nonRed (V1.onlyGreen r i) = false → V1.onlyGreen r i = redOnly) := by
  constructor
  · intro i j hi hj
    by_cases h1 : i = r <;> by_cases h2 : j = r <;>
      simp [V1.onlyGreen, nonRed, redOnly, h1, h2] at hi hj ⊢
  · intro i hi
    by_cases h1 : i = r <;> simp [V1.onlyGreen, nonRed, redOnly, h1] at hi ⊢

/-- C1: in every machine state reachable from the boot state under any
    sequence of serial commands and loop passes, at most one road has a
    yellow or green LED lit, and every other road shows exactly red. -/
theorem mutual_exclusion (m : V1.Machine) (h : V1.Reach m) :
    (∀ i j : Fin 4, nonRed (m.lights i) = true → nonRed (m.lights j) = true → i = j) ∧
    (∀ i : Fin 4, nonRed (m.lights i) = false → m.lights i = redOnly) := by
  obtain ⟨htop, hsy, hey⟩ := lightsInv_reach m h
  cases hpc : m.pc with
  | top =>
    rcases htop hpc with ⟨_, hl⟩ | ⟨_, r, _, hl⟩
    · rw [hl]
      exact shape_allRed
    · rw [hl]
      exact shape_onlyGreen r
  | startYellow r =>
    rw [(hsy r hpc).1]
    exact shape_onlyYellow r
  | endYellow r =>
    rw [hey r hpc]
    exact shape_onlyYellow r

/-- Witness for C1 at the reachable boot state. -/
theorem mutual_exclusion_witness :
    (∀ i j : Fin 4, nonRed (V1.initMachine.lights i) = true →
        nonRed (V1.initMachine.lights j) = true → i = j) ∧
    (∀ i : Fin 4, nonRed (V1.initMachine.lights i) = false →
        V1.initMachine.lights i = redOnly) :=
  mutual_exclusion V1.initMachine V1.Reach.init

end Traffic
